import Mathlib

/-!
Shallow embedding of the HR attrition dashboard (`main.py` and `server.py`).

Both Python files compute aggregate statistics over a list of CSV rows
(dictionaries of strings).  We model a row as a structure of string fields,
Python `int(...)` as a fallible parser `pyInt?`, Python `round` as
round-half-to-even over `ℚ`, and a Python exception escaping a view function
as an `Option.none` result (the HTTP layer turns it into a 500 response).
The `Main` namespace embeds the FastAPI handlers of `main.py`; the `Server`
namespace embeds the corresponding handlers of `server.py`.
-/

namespace HR

/-- Digit-string value; `none` on the empty string or any non-digit character.
Models the digit part of Python `int(...)`. -/
def digitsVal? (cs : List Char) : Option Nat :=
  match cs with
  | [] => none
  | _ =>
    cs.foldl
      (fun acc c =>
        match acc with
        | none => none
        | some a => if c.isDigit then some (a * 10 + (c.toNat - 48)) else none)
      (some 0)

/-- Python `int(s)`: an optional leading minus sign followed by digits; `none`
(a `ValueError` in Python) when `s` is not a decimal integer literal. -/
def pyInt? (s : String) : Option Int :=
  match s.data with
  | [] => none
  | c :: cs =>
    if c = '-' then (digitsVal? cs).map (fun n => -(n : Int))
    else (digitsVal? (c :: cs)).map Int.ofNat

/-- The integer value of a field that is known to parse (read through the
`isSome` guards below, so the default is never observed on the success path). -/
def intVal (s : String) : Int :=
  (pyInt? s).getD 0

/-- Round to the nearest integer, ties to even — Python's `round(x)`. -/
def roundHalfEven (q : ℚ) : Int :=
  let n := ⌊q⌋
  let frac := q - (n : ℚ)
  if frac < 1 / 2 then n
  else if 1 / 2 < frac then n + 1
  else if n % 2 = 0 then n else n + 1

/-- Python `round(x, d)`: round to `d` decimal places, ties to even. -/
def pyRound (q : ℚ) (d : Nat) : ℚ :=
  (roundHalfEven (q * 10 ^ d) : ℚ) / 10 ^ d

/-- Python `range(a, b, s)` for a positive step `s`. -/
def pyRange (a b s : Nat) : List Nat :=
  List.range' a ((b - a + s - 1) / s) s

/-- Python string comparison `a < b`: code-point lexicographic order on the
character sequences (this is also how Lean orders `String`). -/
def strLt (a b : String) : Bool :=
  decide (a.data < b.data)

/-- Python string comparison `a <= b`. -/
def strLe (a b : String) : Bool :=
  !(strLt b a)

/-- Python tuple comparison `(a₁, a₂) <= (b₁, b₂)`: lexicographic on the
components. -/
def pairLe (a b : String × String) : Bool :=
  strLt a.1 b.1 || (a.1 == b.1 && strLe a.2 b.2)

/-- Python `sorted` on strings (code-point lexicographic order). -/
def pySorted (l : List String) : List String :=
  l.mergeSort strLe

/-- One row of `data.csv`: `csv.DictReader` yields all values as strings. -/
structure Row where
  Age : String
  Attrition : String
  Department : String
  Education : String
  EducationField : String
  EnvironmentSatisfaction : String
  Gender : String
  JobInvolvement : String
  JobRole : String
  JobSatisfaction : String
  MonthlyIncome : String
  OverTime : String
  RelationshipSatisfaction : String
  WorkLifeBalance : String
  YearsAtCompany : String
deriving DecidableEq

/-- The four optional query parameters shared by all filtered endpoints. -/
structure Filters where
  gender : Option String
  job_role : Option String
  education : Option String
  department : Option String
deriving DecidableEq

/-- One clause `if c and v != c: continue` of the Python loaders: the row
passes unless `c` is truthy (present and non-empty) and differs from `v`. -/
def matchOpt (c : Option String) (v : String) : Bool :=
  match c with
  | none => true
  | some s => if s = "" then true else v = s

def EDUCATION_MAP : List (String × String) :=
  [("1", "Below College"), ("2", "College"), ("3", "Bachelor"),
   ("4", "Master"), ("5", "Doctor")]

structure FilterOptions where
  genders : List String
  job_roles : List String
  educations : List (String × String)
  departments : List String
deriving DecidableEq

structure Kpis where
  total : Nat
  attrition_rate : ℚ
  avg_age : ℚ
  avg_income : Int
  avg_satisfaction : ℚ
deriving DecidableEq

/-- Shape of `/api/attrition-by-department` and `/api/attrition-by-jobrole`. -/
structure RateView where
  labels : List String
  total : List Nat
  attrition : List Nat
  rate : List ℚ
deriving DecidableEq

/-- Shape of `/api/age-distribution`, `/api/gender-split`, `/api/education-field`. -/
structure CountView where
  labels : List String
  total : List Nat
  attrition : List Nat
deriving DecidableEq

structure IncomeView where
  labels : List String
  avg_income : List Int
deriving DecidableEq

/-- Shape of `/api/satisfaction-distribution` and `/api/overtime-attrition`. -/
structure SplitView where
  labels : List String
  stayed : List Nat
  left : List Nat
deriving DecidableEq

structure YearsView where
  labels : List Int
  attrition_rate : List ℚ
  total : List Nat
deriving DecidableEq

/-- Shape of `/api/worklife-balance`. -/
structure RadarView where
  labels : List String
  stayed : List ℚ
  left : List ℚ
deriving DecidableEq

/-- `range(18, 65, 5)` of the age histogram: ten bin lower bounds 18, 23, …, 63. -/
def bins : List Nat := pyRange 18 65 5

def ageLabels : List String :=
  bins.map (fun b => toString b ++ "-" ++ toString (b + 4))

/-- `min((age - 18) // 5, len(bins) - 1)` with Python floor division. -/
def ageIdx (age : Int) : Int :=
  min ((age - 18).fdiv 5) ((bins.length : Int) - 1)

def satLabels : List String := ["1 - Low", "2 - Medium", "3 - High", "4 - Very High"]

/-- Effective bucket of `left[idx] += 1` for `idx = v - 1`: a Python list of
length 4 resolves a negative index `idx` to `idx + 4`. -/
def satBucket (v : Int) : Int :=
  if v - 1 < 0 then v - 1 + 4 else v - 1

/-- `v - 1` is a valid (possibly negative) Python index into a list of length 4. -/
def satOk (v : Int) : Bool :=
  decide (-4 ≤ v - 1) && decide (v - 1 < 4)

/-- `max(keys) if keys else 0` of the years view. -/
def listMaxOf (l : List Int) : Int :=
  match l with
  | [] => 0
  | y :: t => t.foldl max y

def wlMetrics : List (Row → String) :=
  [fun r => r.JobSatisfaction, fun r => r.EnvironmentSatisfaction,
   fun r => r.RelationshipSatisfaction, fun r => r.WorkLifeBalance,
   fun r => r.JobInvolvement]

def wlLabels : List String :=
  ["Job Satisfaction", "Environment", "Relationships", "Work-Life Balance",
   "Job Involvement"]

/-- All rows relevant to a numeric view parse — otherwise the Python view
raises and the embedding returns `none`. -/
def allParse (f : Row → String) (rows : List Row) : Bool :=
  rows.all (fun r => (pyInt? (f r)).isSome)

namespace Main

/-- `load_data` of `main.py`, with the CSV file abstracted as `data`. -/
def load_data (gender job_role education department : Option String)
    (data : List Row) : List Row :=
  data.filter (fun r =>
    matchOpt gender r.Gender && matchOpt job_role r.JobRole &&
    matchOpt education r.Education && matchOpt department r.Department)

def get_filters (data : List Row) : FilterOptions :=
  let rows := load_data none none none none data
  { genders := pySorted (rows.map (fun r => r.Gender)).dedup
  , job_roles := pySorted (rows.map (fun r => r.JobRole)).dedup
  , educations := EDUCATION_MAP.mergeSort (fun a b => strLe a.1 b.1)
  , departments := pySorted (rows.map (fun r => r.Department)).dedup }

def get_kpis (gender job_role education department : Option String)
    (data : List Row) : Option Kpis :=
  let rows := load_data gender job_role education department data
  let total := rows.length
  if total = 0 then
    some { total := 0, attrition_rate := 0, avg_age := 0, avg_income := 0,
           avg_satisfaction := 0 }
  else if (allParse (fun r => r.Age) rows && allParse (fun r => r.MonthlyIncome) rows)
      && allParse (fun r => r.JobSatisfaction) rows then
    let attrition := rows.countP (fun r => r.Attrition == "Yes")
    some { total := total
         , attrition_rate := pyRound ((attrition : ℚ) / total * 100) 1
         , avg_age := pyRound (((rows.map (fun r => intVal r.Age)).sum : ℚ) / total) 1
         , avg_income := roundHalfEven
             (((rows.map (fun r => intVal r.MonthlyIncome)).sum : ℚ) / total)
         , avg_satisfaction := pyRound
             (((rows.map (fun r => intVal r.JobSatisfaction)).sum : ℚ) / total) 2 }
  else none

def attrition_by_department (gender job_role education department : Option String)
    (data : List Row) : RateView :=
  let rows := load_data gender job_role education department data
  let keys := rows.map (fun r => r.Department)
  let attrKeys := (rows.filter (fun r => r.Attrition == "Yes")).map (fun r => r.Department)
  let labels := pySorted keys.dedup
  { labels := labels
  , total := labels.map (fun l => keys.count l)
  , attrition := labels.map (fun l => attrKeys.count l)
  , rate := labels.map (fun l =>
      if keys.count l = 0 then 0
      else pyRound ((attrKeys.count l : ℚ) / (keys.count l) * 100) 1) }

def attrition_by_jobrole (gender job_role education department : Option String)
    (data : List Row) : RateView :=
  let rows := load_data gender job_role education department data
  let keys := rows.map (fun r => r.JobRole)
  let attrKeys := (rows.filter (fun r => r.Attrition == "Yes")).map (fun r => r.JobRole)
  let labels := pySorted keys.dedup
  { labels := labels
  , total := labels.map (fun l => keys.count l)
  , attrition := labels.map (fun l => attrKeys.count l)
  , rate := labels.map (fun l =>
      if keys.count l = 0 then 0
      else pyRound ((attrKeys.count l : ℚ) / (keys.count l) * 100) 1) }

/-- The loop guard `0 <= idx < len(bins)` is captured by counting rows whose
(age-derived) index equals the bin number `i ∈ [0, len(bins))`: a negative
index matches no bin and the row is dropped. -/
def age_distribution (gender job_role education department : Option String)
    (data : List Row) : Option CountView :=
  let rows := load_data gender job_role education department data
  if allParse (fun r => r.Age) rows then
    some { labels := ageLabels
         , total := (List.range bins.length).map (fun i =>
             rows.countP (fun r => ageIdx (intVal r.Age) == Int.ofNat i))
         , attrition := (List.range bins.length).map (fun i =>
             rows.countP (fun r =>
               ageIdx (intVal r.Age) == Int.ofNat i && r.Attrition == "Yes")) }
  else none

def gender_split (gender job_role education department : Option String)
    (data : List Row) : CountView :=
  let rows := load_data gender job_role education department data
  let keys := rows.map (fun r => r.Gender)
  let attrKeys := (rows.filter (fun r => r.Attrition == "Yes")).map (fun r => r.Gender)
  let labels := pySorted keys.dedup
  { labels := labels
  , total := labels.map (fun l => keys.count l)
  , attrition := labels.map (fun l => attrKeys.count l) }

def income_by_role (gender job_role education department : Option String)
    (data : List Row) : Option IncomeView :=
  let rows := load_data gender job_role education department data
  if allParse (fun r => r.MonthlyIncome) rows then
    let labels := pySorted (rows.map (fun r => r.JobRole)).dedup
    some { labels := labels
         , avg_income := labels.map (fun l =>
             let grp := (rows.filter (fun r => r.JobRole == l)).map
               (fun r => intVal r.MonthlyIncome)
             if grp.length = 0 then 0
             else roundHalfEven ((grp.sum : ℚ) / grp.length)) }
  else none

/-- `left[idx] += 1` with `idx = int(r["JobSatisfaction"]) - 1`: raises on an
unparsable value or an index outside `[-4, 4)`; a negative index wraps to the
end of the list, which `satBucket` reproduces. -/
def satisfaction_distribution (gender job_role education department : Option String)
    (data : List Row) : Option SplitView :=
  let rows := load_data gender job_role education department data
  if rows.all (fun r =>
      match pyInt? r.JobSatisfaction with
      | some v => satOk v
      | none => false) then
    some { labels := satLabels
         , stayed := (List.range 4).map (fun i =>
             rows.countP (fun r =>
               satBucket (intVal r.JobSatisfaction) == Int.ofNat i
                 && !(r.Attrition == "Yes")))
         , left := (List.range 4).map (fun i =>
             rows.countP (fun r =>
               satBucket (intVal r.JobSatisfaction) == Int.ofNat i
                 && r.Attrition == "Yes")) }
  else none

/-- `data[r["OverTime"]][r["Attrition"]] += 1` raises a `KeyError` unless both
fields are literally `"Yes"` or `"No"`. -/
def overtime_attrition (gender job_role education department : Option String)
    (data : List Row) : Option SplitView :=
  let rows := load_data gender job_role education department data
  if rows.all (fun r =>
      (r.OverTime == "Yes" || r.OverTime == "No")
        && (r.Attrition == "Yes" || r.Attrition == "No")) then
    some { labels := ["With Overtime", "Without Overtime"]
         , stayed := [rows.countP (fun r => r.OverTime == "Yes" && r.Attrition == "No"),
                      rows.countP (fun r => r.OverTime == "No" && r.Attrition == "No")]
         , left := [rows.countP (fun r => r.OverTime == "Yes" && r.Attrition == "Yes"),
                    rows.countP (fun r => r.OverTime == "No" && r.Attrition == "Yes")] }
  else none

def education_field (gender job_role education department : Option String)
    (data : List Row) : CountView :=
  let rows := load_data gender job_role education department data
  let keys := rows.map (fun r => r.EducationField)
  let attrKeys := (rows.filter (fun r => r.Attrition == "Yes")).map
    (fun r => r.EducationField)
  let labels := pySorted keys.dedup
  { labels := labels
  , total := labels.map (fun l => keys.count l)
  , attrition := labels.map (fun l => attrKeys.count l) }

def years_attrition (gender job_role education department : Option String)
    (data : List Row) : Option YearsView :=
  let rows := load_data gender job_role education department data
  if allParse (fun r => r.YearsAtCompany) rows then
    let ys := rows.map (fun r => intVal r.YearsAtCompany)
    let attrYs := (rows.filter (fun r => r.Attrition == "Yes")).map
      (fun r => intVal r.YearsAtCompany)
    let max_year := listMaxOf ys
    let labels := (List.range (min (max_year + 1) 41).toNat).map Int.ofNat
    some { labels := labels
         , attrition_rate := labels.map (fun y =>
             if ys.count y = 0 then 0
             else pyRound ((attrYs.count y : ℚ) / (ys.count y) * 100) 1)
         , total := labels.map (fun y => ys.count y) }
  else none

/-- The comprehensions read the five metric fields only of rows whose
`Attrition` is exactly `"No"` or `"Yes"`; other rows are never parsed. -/
def worklife_balance (gender job_role education department : Option String)
    (data : List Row) : Option RadarView :=
  let rows := load_data gender job_role education department data
  if rows.all (fun r =>
      !(r.Attrition == "No" || r.Attrition == "Yes")
        || ((((pyInt? r.JobSatisfaction).isSome
              && (pyInt? r.EnvironmentSatisfaction).isSome)
             && ((pyInt? r.RelationshipSatisfaction).isSome
              && (pyInt? r.WorkLifeBalance).isSome))
            && (pyInt? r.JobInvolvement).isSome)) then
    some { labels := wlLabels
         , stayed := wlMetrics.map (fun m =>
             let vals := (rows.filter (fun r => r.Attrition == "No")).map
               (fun r => intVal (m r))
             if vals.length = 0 then 0 else pyRound ((vals.sum : ℚ) / vals.length) 2)
         , left := wlMetrics.map (fun m =>
             let vals := (rows.filter (fun r => r.Attrition == "Yes")).map
               (fun r => intVal (m r))
             if vals.length = 0 then 0 else pyRound ((vals.sum : ℚ) / vals.length) 2) }
  else none

end Main

namespace Server

/-- `load_data` of `server.py` (identical filter clauses, params as a dict). -/
def load_data (p : Filters) (data : List Row) : List Row :=
  data.filter (fun r =>
    matchOpt p.gender r.Gender && matchOpt p.job_role r.JobRole &&
    matchOpt p.education r.Education && matchOpt p.department r.Department)

/-- `sorted(EDUCATION_MAP.items())` sorts the pairs themselves (key first,
value as tie-break), unlike `main.py` which sorts by key only. -/
def api_filters (data : List Row) : FilterOptions :=
  let rows := load_data ⟨none, none, none, none⟩ data
  { genders := pySorted (rows.map (fun r => r.Gender)).dedup
  , job_roles := pySorted (rows.map (fun r => r.JobRole)).dedup
  , educations := EDUCATION_MAP.mergeSort pairLe
  , departments := pySorted (rows.map (fun r => r.Department)).dedup }

def api_kpis (p : Filters) (data : List Row) : Option Kpis :=
  let rows := load_data p data
  let total := rows.length
  if total = 0 then
    some { total := 0, attrition_rate := 0, avg_age := 0, avg_income := 0,
           avg_satisfaction := 0 }
  else if (allParse (fun r => r.Age) rows && allParse (fun r => r.MonthlyIncome) rows)
      && allParse (fun r => r.JobSatisfaction) rows then
    let attr := rows.countP (fun r => r.Attrition == "Yes")
    some { total := total
         , attrition_rate := pyRound ((attr : ℚ) / total * 100) 1
         , avg_age := pyRound (((rows.map (fun r => intVal r.Age)).sum : ℚ) / total) 1
         , avg_income := roundHalfEven
             (((rows.map (fun r => intVal r.MonthlyIncome)).sum : ℚ) / total)
         , avg_satisfaction := pyRound
             (((rows.map (fun r => intVal r.JobSatisfaction)).sum : ℚ) / total) 2 }
  else none

def api_attrition_dept (p : Filters) (data : List Row) : RateView :=
  let rows := load_data p data
  let keys := rows.map (fun r => r.Department)
  let attrKeys := (rows.filter (fun r => r.Attrition == "Yes")).map (fun r => r.Department)
  let labels := pySorted keys.dedup
  { labels := labels
  , total := labels.map (fun l => keys.count l)
  , attrition := labels.map (fun l => attrKeys.count l)
  , rate := labels.map (fun l =>
      if keys.count l = 0 then 0
      else pyRound ((attrKeys.count l : ℚ) / (keys.count l) * 100) 1) }

def api_attrition_jobrole (p : Filters) (data : List Row) : RateView :=
  let rows := load_data p data
  let keys := rows.map (fun r => r.JobRole)
  let attrKeys := (rows.filter (fun r => r.Attrition == "Yes")).map (fun r => r.JobRole)
  let labels := pySorted keys.dedup
  { labels := labels
  , total := labels.map (fun l => keys.count l)
  , attrition := labels.map (fun l => attrKeys.count l)
  , rate := labels.map (fun l =>
      if keys.count l = 0 then 0
      else pyRound ((attrKeys.count l : ℚ) / (keys.count l) * 100) 1) }

def api_age_dist (p : Filters) (data : List Row) : Option CountView :=
  let rows := load_data p data
  if allParse (fun r => r.Age) rows then
    some { labels := ageLabels
         , total := (List.range bins.length).map (fun i =>
             rows.countP (fun r => ageIdx (intVal r.Age) == Int.ofNat i))
         , attrition := (List.range bins.length).map (fun i =>
             rows.countP (fun r =>
               ageIdx (intVal r.Age) == Int.ofNat i && r.Attrition == "Yes")) }
  else none

def api_gender_split (p : Filters) (data : List Row) : CountView :=
  let rows := load_data p data
  let keys := rows.map (fun r => r.Gender)
  let attrKeys := (rows.filter (fun r => r.Attrition == "Yes")).map (fun r => r.Gender)
  let labels := pySorted keys.dedup
  { labels := labels
  , total := labels.map (fun l => keys.count l)
  , attrition := labels.map (fun l => attrKeys.count l) }

def api_income_role (p : Filters) (data : List Row) : Option IncomeView :=
  let rows := load_data p data
  if allParse (fun r => r.MonthlyIncome) rows then
    let labels := pySorted (rows.map (fun r => r.JobRole)).dedup
    some { labels := labels
         , avg_income := labels.map (fun l =>
             let grp := (rows.filter (fun r => r.JobRole == l)).map
               (fun r => intVal r.MonthlyIncome)
             if grp.length = 0 then 0
             else roundHalfEven ((grp.sum : ℚ) / grp.length)) }
  else none

def api_satisfaction (p : Filters) (data : List Row) : Option SplitView :=
  let rows := load_data p data
  if rows.all (fun r =>
      match pyInt? r.JobSatisfaction with
      | some v => satOk v
      | none => false) then
    some { labels := satLabels
         , stayed := (List.range 4).map (fun i =>
             rows.countP (fun r =>
               satBucket (intVal r.JobSatisfaction) == Int.ofNat i
                 && !(r.Attrition == "Yes")))
         , left := (List.range 4).map (fun i =>
             rows.countP (fun r =>
               satBucket (intVal r.JobSatisfaction) == Int.ofNat i
                 && r.Attrition == "Yes")) }
  else none

def api_overtime (p : Filters) (data : List Row) : Option SplitView :=
  let rows := load_data p data
  if rows.all (fun r =>
      (r.OverTime == "Yes" || r.OverTime == "No")
        && (r.Attrition == "Yes" || r.Attrition == "No")) then
    some { labels := ["With Overtime", "Without Overtime"]
         , stayed := [rows.countP (fun r => r.OverTime == "Yes" && r.Attrition == "No"),
                      rows.countP (fun r => r.OverTime == "No" && r.Attrition == "No")]
         , left := [rows.countP (fun r => r.OverTime == "Yes" && r.Attrition == "Yes"),
                    rows.countP (fun r => r.OverTime == "No" && r.Attrition == "Yes")] }
  else none

def api_edu_field (p : Filters) (data : List Row) : CountView :=
  let rows := load_data p data
  let keys := rows.map (fun r => r.EducationField)
  let attrKeys := (rows.filter (fun r => r.Attrition == "Yes")).map
    (fun r => r.EducationField)
  let labels := pySorted keys.dedup
  { labels := labels
  , total := labels.map (fun l => keys.count l)
  , attrition := labels.map (fun l => attrKeys.count l) }

def api_years_attrition (p : Filters) (data : List Row) : Option YearsView :=
  let rows := load_data p data
  if allParse (fun r => r.YearsAtCompany) rows then
    let ys := rows.map (fun r => intVal r.YearsAtCompany)
    let attrYs := (rows.filter (fun r => r.Attrition == "Yes")).map
      (fun r => intVal r.YearsAtCompany)
    let mx := listMaxOf ys
    let labels := (List.range (min (mx + 1) 41).toNat).map Int.ofNat
    some { labels := labels
         , attrition_rate := labels.map (fun y =>
             if ys.count y = 0 then 0
             else pyRound ((attrYs.count y : ℚ) / (ys.count y) * 100) 1)
         , total := labels.map (fun y => ys.count y) }
  else none

def api_worklife (p : Filters) (data : List Row) : Option RadarView :=
  let rows := load_data p data
  if rows.all (fun r =>
      !(r.Attrition == "No" || r.Attrition == "Yes")
        || ((((pyInt? r.JobSatisfaction).isSome
              && (pyInt? r.EnvironmentSatisfaction).isSome)
             && ((pyInt? r.RelationshipSatisfaction).isSome
              && (pyInt? r.WorkLifeBalance).isSome))
            && (pyInt? r.JobInvolvement).isSome)) then
    some { labels := wlLabels
         , stayed := wlMetrics.map (fun m =>
             let vals := (rows.filter (fun r => r.Attrition == "No")).map
               (fun r => intVal (m r))
             if vals.length = 0 then 0 else pyRound ((vals.sum : ℚ) / vals.length) 2)
         , left := wlMetrics.map (fun m =>
             let vals := (rows.filter (fun r => r.Attrition == "Yes")).map
               (fun r => intVal (m r))
             if vals.length = 0 then 0 else pyRound ((vals.sum : ℚ) / vals.length) 2) }
  else none

end Server

/-- Outcome of one request at the HTTP boundary: status code plus the JSON
payload on success. -/
structure Response (α : Type) where
  status : Nat
  body : Option α
deriving DecidableEq

/-- `Handler.do_GET` of `server.py` around one route handler: a normal result
is sent as HTTP 200 with the payload; an escaped exception becomes
`send_error(500, …)` with no payload. -/
def handle {α : Type} (result : Option α) : Response α :=
  match result with
  | some v => { status := 200, body := some v }
  | none => { status := 500, body := none }

/-- The loader as the spec sentence behind claim C3 words it: every supplied
constraint must match the corresponding field by exact string equality
(an empty-string constraint included). -/
def load_data_specC3 (gender job_role education department : Option String)
    (data : List Row) : List Row :=
  data.filter (fun r =>
    (match gender with | none => true | some s => r.Gender == s) &&
    (match job_role with | none => true | some s => r.JobRole == s) &&
    (match education with | none => true | some s => r.Education == s) &&
    (match department with | none => true | some s => r.Department == s))

/-- A well-formed sample row for concrete evaluations. -/
def baseRow : Row :=
  { Age := "30", Attrition := "No", Department := "Sales", Education := "3"
  , EducationField := "Marketing", EnvironmentSatisfaction := "2"
  , Gender := "Male", JobInvolvement := "3", JobRole := "Manager"
  , JobSatisfaction := "4", MonthlyIncome := "5000", OverTime := "No"
  , RelationshipSatisfaction := "1", WorkLifeBalance := "2"
  , YearsAtCompany := "5" }

def rowAge17 : Row := { baseRow with Age := "17" }

def rowAge61 : Row := { baseRow with Age := "61" }

def rowBadAge : Row := { baseRow with Age := "abc" }

def rowSat0 : Row := { baseRow with JobSatisfaction := "0", Attrition := "Yes" }

def rowMaybe : Row := { baseRow with Attrition := "Maybe", JobSatisfaction := "abc" }

def rowYears55 : Row := { baseRow with YearsAtCompany := "55" }

def rowBadYears : Row := { baseRow with YearsAtCompany := "many" }

def noFilter : Filters := { gender := none, job_role := none, education := none, department := none }

/-- Age view of the single row `rowAge17`: the row is counted in no bin. -/
def ageView17 : CountView :=
  { labels := ageLabels, total := List.replicate 10 0, attrition := List.replicate 10 0 }

/-- Age view of the single row `rowAge61`: counted in bin 8 (`"58-62"`), not
in the final bin 9 (`"63-67"`). -/
def ageView61 : CountView :=
  { labels := ageLabels, total := [0, 0, 0, 0, 0, 0, 0, 0, 1, 0]
  , attrition := [0, 0, 0, 0, 0, 0, 0, 0, 0, 0] }

/-- Work-life view of the single row `rowMaybe`: the row is skipped entirely. -/
def wlSkipView : RadarView :=
  { labels := wlLabels, stayed := [0, 0, 0, 0, 0], left := [0, 0, 0, 0, 0] }

/-- Years view of the single row `rowYears55`: labels stop at 40 and the row
is counted nowhere. -/
def years55View : YearsView :=
  { labels := (List.range 41).map Int.ofNat
  , attrition_rate := List.replicate 41 0, total := List.replicate 41 0 }

/-- Satisfaction view of the single row `rowSat0`: `JobSatisfaction = "0"`
gives Python index `-1`, which lands in the last bucket. -/
def satWrapView : SplitView :=
  { labels := satLabels, stayed := [0, 0, 0, 0], left := [0, 0, 0, 1] }

/-- Age view of the single row `baseRow` (Age 30 falls in bin 2). -/
def ageViewBase : CountView :=
  { labels := ageLabels, total := [0, 0, 1, 0, 0, 0, 0, 0, 0, 0]
  , attrition := [0, 0, 0, 0, 0, 0, 0, 0, 0, 0] }

/-- Years view of the single row `baseRow` (five years at company, stayed). -/
def yearsBaseView : YearsView :=
  { labels := (List.range 6).map Int.ofNat
  , attrition_rate := [0, 0, 0, 0, 0,
      pyRound ((((0 : Nat)) : ℚ) / (((1 : Nat)) : ℚ) * 100) 1]
  , total := [0, 0, 0, 0, 0, 1] }

/-- Satisfaction view of the single row `baseRow` (rating 4, stayed). -/
def satBaseView : SplitView :=
  { labels := satLabels, stayed := [0, 0, 0, 1], left := [0, 0, 0, 0] }

/-! ### Order and sorting lemmas -/

lemma strLe_iff (a b : String) : strLe a b = true ↔ a ≤ b := by
  simp [strLe, strLt, String.le_iff_toList_le, String.toList]

lemma strLe_trans :
    ∀ (a b c : String), strLe a b = true → strLe b c = true → strLe a c = true := by
  intro a b c hab hbc
  rw [strLe_iff] at *
  exact le_trans hab hbc

lemma strLe_total : ∀ (a b : String), (strLe a b || strLe b a) = true := by
  intro a b
  rcases le_total a b with h | h
  · simp [strLe_iff, h]
  · simp [strLe_iff, h]

lemma pySorted_perm (l : List String) : (pySorted l).Perm l :=
  List.mergeSort_perm l strLe

lemma pySorted_sorted (l : List String) :
    List.Sorted (fun a b : String => a ≤ b) (pySorted l) := by
  have h := List.sorted_mergeSort strLe_trans strLe_total l
  exact h.imp (fun hab => (strLe_iff _ _).mp hab)

/-! ### Counting lemmas -/

lemma sum_map_add_nat {α : Type} (S : List α) (f g : α → Nat) :
    (S.map (fun x => f x + g x)).sum = (S.map f).sum + (S.map g).sum := by
  induction S with
  | nil => simp
  | cons b t ih =>
    simp only [List.map_cons, List.sum_cons, ih]
    omega

lemma sum_map_ite_eq_count {α : Type} [DecidableEq α] (k : α) (S : List α) :
    (S.map (fun x => if k = x then (1 : Nat) else 0)).sum = S.count k := by
  induction S with
  | nil => simp
  | cons b t ih =>
    simp only [List.map_cons, List.sum_cons, List.count_cons, ih]
    by_cases h : k = b
    · subst h
      simp
      omega
    · have hb : ¬ b = k := fun hbk => h hbk.symm
      simp [h, hb]

/-- Over a duplicate-free list `S` containing every element of `ks`, the
per-label occurrence counts of `ks` sum to the length of `ks`. -/
lemma sum_map_count_eq_length {α : Type} [DecidableEq α] :
    ∀ (ks S : List α), S.Nodup → (∀ k ∈ ks, k ∈ S) →
      (S.map (fun x => ks.count x)).sum = ks.length := by
  intro ks
  induction ks with
  | nil =>
    intro S _ _
    simp
  | cons k t ih =>
    intro S hS hsub
    have hk : k ∈ S := hsub k (List.mem_cons_self k t)
    have ht : ∀ x ∈ t, x ∈ S := fun x hx => hsub x (List.mem_cons_of_mem _ hx)
    have hfun : (S.map (fun x => (k :: t).count x))
        = S.map (fun x => t.count x + if k = x then 1 else 0) := by
      apply List.map_congr_left
      intro x _
      rw [List.count_cons]
      simp [beq_iff_eq]
    rw [hfun, sum_map_add_nat, ih S hS ht, sum_map_ite_eq_count,
      List.count_eq_one_of_mem hS hk]
    simp

lemma sum_map_pySorted (l : List String) (f : String → Nat) :
    ((pySorted l).map f).sum = (l.map f).sum :=
  List.Perm.sum_eq ((pySorted_perm l).map f)

/-- Sum of per-label counts over the sorted de-duplicated label list. -/
lemma sum_count_over_sorted_dedup (keys sub : List String)
    (hsub : ∀ k ∈ sub, k ∈ keys) :
    ((pySorted keys.dedup).map (fun x => sub.count x)).sum = sub.length := by
  rw [sum_map_pySorted]
  exact sum_map_count_eq_length sub keys.dedup (List.nodup_dedup keys)
    (fun k hk => List.mem_dedup.mpr (hsub k hk))

lemma countP_eq_count_map {α β : Type} [DecidableEq β] (l : List α) (f : α → β) (b : β) :
    l.countP (fun a => f a == b) = (l.map f).count b := by
  rw [List.count_eq_countP, List.countP_map]
  rfl

lemma countP_band_split {α : Type} (l : List α) (A B : α → Bool) :
    l.countP (fun r => A r && B r) + l.countP (fun r => A r && !(B r)) = l.countP A := by
  induction l with
  | nil => simp
  | cons a t ih =>
    simp only [List.countP_cons]
    by_cases hA : A a
    · by_cases hB : B a <;> simp [hA, hB] <;> omega
    · simp [hA]
      omega

/-! ### Indexing lemmas -/

lemma getD_map_of_lt {α β : Type} (l : List α) (f : α → β) (d : β) (i : Nat)
    (h : i < l.length) :
    (l.map f).getD i d = f (l.get ⟨i, h⟩) := by
  rw [List.getD_eq_getElem _ _ (by simpa using h)]
  simp

lemma getD_map_of_ge {α β : Type} (l : List α) (f : α → β) (d : β) (i : Nat)
    (h : l.length ≤ i) :
    (l.map f).getD i d = d := by
  apply List.getD_eq_default
  simpa using h

/-! ### Filter and parsing lemmas -/

lemma matchOpt_eq_true_iff (c : Option String) (v : String) :
    matchOpt c v = true ↔ ∀ s, c = some s → s ≠ "" → v = s := by
  cases c with
  | none => simp [matchOpt]
  | some s =>
    by_cases hs : s = ""
    · subst hs
      simp [matchOpt]
    · simp [matchOpt, hs]

lemma allParse_iff (f : Row → String) (rows : List Row) :
    allParse f rows = true ↔ ∀ r ∈ rows, (pyInt? (f r)).isSome := by
  simp [allParse]

lemma allParse_eq_false {f : Row → String} {rows : List Row} {r : Row}
    (hr : r ∈ rows) (hbad : pyInt? (f r) = none) : allParse f rows = false := by
  have hnot : ¬ allParse f rows = true := by
    rw [allParse_iff]
    intro h
    have h2 := h r hr
    rw [hbad] at h2
    simp at h2
  simpa using hnot

/-! ### Numeric helper lemmas -/

lemma le_foldl_max (l : List Int) :
    ∀ (b : Int), b ≤ l.foldl max b ∧ ∀ x ∈ l, x ≤ l.foldl max b := by
  induction l with
  | nil =>
    intro b
    exact ⟨le_refl b, by simp⟩
  | cons y t ih =>
    intro b
    constructor
    · exact le_trans (le_max_left b y) (ih (max b y)).1
    · intro x hx
      rcases List.mem_cons.mp hx with rfl | hx
      · exact le_trans (le_max_right b x) (ih (max b x)).1
      · exact (ih (max b y)).2 x hx

lemma le_listMaxOf {l : List Int} {x : Int} (hx : x ∈ l) : x ≤ listMaxOf l := by
  cases l with
  | nil => simp at hx
  | cons y t =>
    rcases List.mem_cons.mp hx with rfl | hx
    · exact (le_foldl_max t x).1
    · exact (le_foldl_max t y).2 x hx

lemma bins_length : bins.length = 10 := rfl

/-- Python floor division by the positive constant 5 agrees with `Int` ediv. -/
lemma ageIdx_eq (a : Int) : ageIdx a = min ((a - 18) / 5) 9 := by
  unfold ageIdx
  rw [Int.fdiv_eq_ediv _ (by norm_num), bins_length]
  norm_num

lemma ageIdx_neg_of_le_17 {a : Int} (h : a ≤ 17) : ageIdx a < 0 := by
  rw [ageIdx_eq]
  omega

lemma ageIdx_nonneg_of_ge_18 {a : Int} (h : 18 ≤ a) : 0 ≤ ageIdx a := by
  rw [ageIdx_eq]
  omega

lemma ageIdx_le_9 (a : Int) : ageIdx a ≤ 9 := by
  rw [ageIdx_eq]
  omega

lemma ageIdx_eq_8_of_58_62 {a : Int} (h1 : 58 ≤ a) (h2 : a ≤ 62) : ageIdx a = 8 := by
  rw [ageIdx_eq]
  omega

lemma ageIdx_eq_9_of_ge_63 {a : Int} (h : 63 ≤ a) : ageIdx a = 9 := by
  rw [ageIdx_eq]
  omega

/-! ### Claim C5 -/

/-- C5: for every filter criteria under which the filtered record set is
empty, the KPI summary (in both implementations) returns exactly
`{total: 0, attrition_rate: 0, avg_age: 0, avg_income: 0, avg_satisfaction: 0}`.
The emptiness test is taken before the parse-and-divide branch, so the
all-zero object is produced irrespective of the rows' field contents. -/
theorem kpis_empty_all_zero (g j e d : Option String) (p : Filters)
    (data data2 : List Row)
    (h1 : Main.load_data g j e d data = [])
    (h2 : Server.load_data p data2 = []) :
    Main.get_kpis g j e d data
        = some { total := 0, attrition_rate := 0, avg_age := 0, avg_income := 0
               , avg_satisfaction := 0 } ∧
    Server.api_kpis p data2
        = some { total := 0, attrition_rate := 0, avg_age := 0, avg_income := 0
               , avg_satisfaction := 0 } := by
  constructor
  · simp [Main.get_kpis, h1]
  · simp [Server.api_kpis, h2]

theorem kpis_empty_all_zero_witness :
    Main.get_kpis none none none none []
        = some { total := 0, attrition_rate := 0, avg_age := 0, avg_income := 0
               , avg_satisfaction := 0 } ∧
    Server.api_kpis noFilter []
        = some { total := 0, attrition_rate := 0, avg_age := 0, avg_income := 0
               , avg_satisfaction := 0 } :=
  kpis_empty_all_zero none none none none noFilter [] [] rfl rfl

/-! ### Claim C3 -/

/-- C3 counterexample: the gender constraint is supplied as the empty string;
exact string equality would exclude `baseRow` (its `Gender` is `"Male"`),
but the loader returns it, because Python's `if gender and …` treats the
empty string as falsy. -/
theorem load_data_counterexample :
    Main.load_data (some "") none none none [baseRow] = [baseRow] ∧
    load_data_specC3 (some "") none none none [baseRow] = [] ∧
    baseRow.Gender ≠ "" := by
  refine ⟨rfl, rfl, ?_⟩
  decide

/-- C3 (amended): the loader returns the records matching every supplied
NON-EMPTY constraint by exact string equality, in source order (a sublist of
the input); an absent — or empty-string — constraint imposes no restriction.
`server.py`'s loader is the same function. -/
theorem load_data_characterization (g j e d : Option String) (data : List Row) :
    (Main.load_data g j e d data).Sublist data ∧
    (∀ r : Row, r ∈ Main.load_data g j e d data ↔
      r ∈ data ∧
      (∀ s, g = some s → s ≠ "" → r.Gender = s) ∧
      (∀ s, j = some s → s ≠ "" → r.JobRole = s) ∧
      (∀ s, e = some s → s ≠ "" → r.Education = s) ∧
      (∀ s, d = some s → s ≠ "" → r.Department = s)) ∧
    Server.load_data { gender := g, job_role := j, education := e, department := d } data
      = Main.load_data g j e d data := by
  refine ⟨List.filter_sublist data, ?_, rfl⟩
  intro r
  simp only [Main.load_data, List.mem_filter, Bool.and_eq_true, matchOpt_eq_true_iff]
  tauto

/-! ### Claim C10 -/

unseal List.merge List.mergeSort in
lemma education_sort_eq :
    EDUCATION_MAP.mergeSort (fun a b => strLe a.1 b.1)
      = EDUCATION_MAP.mergeSort pairLe := rfl

/-- C10: applied to the same dataset and the same filter criteria, every view
handler of `main.py` computes the same result object as its `server.py`
counterpart (the loader included). -/
theorem main_server_equivalent (p : Filters) (data : List Row) :
    Main.load_data p.gender p.job_role p.education p.department data
        = Server.load_data p data ∧
    Main.get_filters data = Server.api_filters data ∧
    Main.get_kpis p.gender p.job_role p.education p.department data
        = Server.api_kpis p data ∧
    Main.attrition_by_department p.gender p.job_role p.education p.department data
        = Server.api_attrition_dept p data ∧
    Main.attrition_by_jobrole p.gender p.job_role p.education p.department data
        = Server.api_attrition_jobrole p data ∧
    Main.age_distribution p.gender p.job_role p.education p.department data
        = Server.api_age_dist p data ∧
    Main.gender_split p.gender p.job_role p.education p.department data
        = Server.api_gender_split p data ∧
    Main.income_by_role p.gender p.job_role p.education p.department data
        = Server.api_income_role p data ∧
    Main.satisfaction_distribution p.gender p.job_role p.education p.department data
        = Server.api_satisfaction p data ∧
    Main.overtime_attrition p.gender p.job_role p.education p.department data
        = Server.api_overtime p data ∧
    Main.education_field p.gender p.job_role p.education p.department data
        = Server.api_edu_field p data ∧
    Main.years_attrition p.gender p.job_role p.education p.department data
        = Server.api_years_attrition p data ∧
    Main.worklife_balance p.gender p.job_role p.education p.department data
        = Server.api_worklife p data := by
  refine ⟨rfl, ?_, rfl, rfl, rfl, rfl, rfl, rfl, rfl, rfl, rfl, rfl, rfl⟩
  simp only [Main.get_filters, Server.api_filters, education_sort_eq]
  rfl

/-! ### Claim C9 -/

/-- Buckets of valid rows partition them: stayed plus left totals count every
row once. -/
lemma sat_counts_sum (rows : List Row)
    (h : ∀ r ∈ rows, 0 ≤ satBucket (intVal r.JobSatisfaction) ∧
      satBucket (intVal r.JobSatisfaction) < 4) :
    ((List.range 4).map (fun i =>
        rows.countP (fun r =>
          satBucket (intVal r.JobSatisfaction) == Int.ofNat i
            && !(r.Attrition == "Yes")))).sum
      + ((List.range 4).map (fun i =>
        rows.countP (fun r =>
          satBucket (intVal r.JobSatisfaction) == Int.ofNat i
            && r.Attrition == "Yes"))).sum
      = rows.length := by
  rw [← sum_map_add_nat]
  have hpt : ∀ i : Nat,
      rows.countP (fun r =>
        satBucket (intVal r.JobSatisfaction) == Int.ofNat i && !(r.Attrition == "Yes"))
      + rows.countP (fun r =>
        satBucket (intVal r.JobSatisfaction) == Int.ofNat i && r.Attrition == "Yes")
      = rows.countP (fun r => satBucket (intVal r.JobSatisfaction) == Int.ofNat i) := by
    intro i
    rw [Nat.add_comm]
    exact countP_band_split rows _ _
  have hmap : (List.range 4).map (fun i =>
      rows.countP (fun r =>
        satBucket (intVal r.JobSatisfaction) == Int.ofNat i && !(r.Attrition == "Yes"))
      + rows.countP (fun r =>
        satBucket (intVal r.JobSatisfaction) == Int.ofNat i && r.Attrition == "Yes"))
      = (List.range 4).map (fun i =>
        ((rows.map (fun r => satBucket (intVal r.JobSatisfaction))).count (Int.ofNat i))) := by
    apply List.map_congr_left
    intro i _
    rw [hpt i, countP_eq_count_map]
  rw [hmap]
  have hS : ((List.range 4).map Int.ofNat).map
      (fun x => (rows.map (fun r => satBucket (intVal r.JobSatisfaction))).count x)
      = (List.range 4).map (fun i =>
        ((rows.map (fun r => satBucket (intVal r.JobSatisfaction))).count (Int.ofNat i))) := by
    rw [List.map_map]
    rfl
  rw [← hS, sum_map_count_eq_length]
  · rw [List.length_map]
  · exact List.Nodup.map Nat.cast_injective (List.nodup_range 4)
  · intro k hk
    rcases List.mem_map.mp hk with ⟨r, hr, rfl⟩
    rcases h r hr with ⟨h0, h4⟩
    exact List.mem_map.mpr ⟨(satBucket (intVal r.JobSatisfaction)).toNat,
      List.mem_range.mpr (by omega), Int.toNat_of_nonneg h0⟩

/-- C9: under the precondition that every filtered record's `JobSatisfaction`
parses to an integer 1..4, the bucket index `v - 1` is a valid index 0..3
(no negative wrap), the view succeeds, and the four stayed buckets plus the
four left buckets together count every filtered record exactly once; without
the precondition the index is unguarded: a `JobSatisfaction` of `"0"` gives
Python index `-1` and the record is counted in the LAST bucket instead of
failing. -/
theorem satisfaction_buckets_valid_and_total (g j e d : Option String) (data : List Row)
    (h : ∀ r ∈ Main.load_data g j e d data,
      ∃ v, pyInt? r.JobSatisfaction = some v ∧ 1 ≤ v ∧ v ≤ 4) :
    (∃ res, Main.satisfaction_distribution g j e d data = some res ∧
      res.stayed.length = 4 ∧ res.left.length = 4 ∧
      res.stayed.sum + res.left.sum = (Main.load_data g j e d data).length) ∧
    (∀ r ∈ Main.load_data g j e d data, ∀ v, pyInt? r.JobSatisfaction = some v →
      0 ≤ v - 1 ∧ v - 1 < 4 ∧ satBucket v = v - 1) ∧
    Main.satisfaction_distribution none none none none [rowSat0] = some satWrapView := by
  have hvalid : ∀ r ∈ Main.load_data g j e d data,
      0 ≤ satBucket (intVal r.JobSatisfaction) ∧
      satBucket (intVal r.JobSatisfaction) < 4 := by
    intro r hr
    rcases h r hr with ⟨v, hv, h1, h4⟩
    have : intVal r.JobSatisfaction = v := by
      simp [intVal, hv]
    rw [this]
    unfold satBucket
    constructor <;> [skip; skip] <;> (split <;> omega)
  have hguard : (Main.load_data g j e d data).all (fun r =>
      match pyInt? r.JobSatisfaction with
      | some v => satOk v
      | none => false) = true := by
    rw [List.all_eq_true]
    intro r hr
    rcases h r hr with ⟨v, hv, h1, h4⟩
    rw [hv]
    simp [satOk]
    omega
  refine ⟨?_, ?_, ?_⟩
  · refine ⟨{ labels := satLabels
            , stayed := (List.range 4).map (fun i =>
                (Main.load_data g j e d data).countP (fun r =>
                  satBucket (intVal r.JobSatisfaction) == Int.ofNat i
                    && !(r.Attrition == "Yes")))
            , left := (List.range 4).map (fun i =>
                (Main.load_data g j e d data).countP (fun r =>
                  satBucket (intVal r.JobSatisfaction) == Int.ofNat i
                    && r.Attrition == "Yes")) }, ?_, ?_, ?_, ?_⟩
    · simp only [Main.satisfaction_distribution]
      rw [if_pos hguard]
    · simp
    · simp
    · exact sat_counts_sum (Main.load_data g j e d data) hvalid
  · intro r hr v hv
    rcases h r hr with ⟨v2, hv2, h1, h4⟩
    rw [hv] at hv2
    cases hv2
    refine ⟨by omega, by omega, ?_⟩
    unfold satBucket
    split <;> omega
  · decide

theorem satisfaction_buckets_witness :
    (∃ res, Main.satisfaction_distribution none none none none [baseRow] = some res ∧
      res.stayed.length = 4 ∧ res.left.length = 4 ∧
      res.stayed.sum + res.left.sum
        = (Main.load_data none none none none [baseRow]).length) ∧
    (∀ r ∈ Main.load_data none none none none [baseRow],
      ∀ v, pyInt? r.JobSatisfaction = some v →
      0 ≤ v - 1 ∧ v - 1 < 4 ∧ satBucket v = v - 1) ∧
    Main.satisfaction_distribution none none none none [rowSat0] = some satWrapView := by
  apply satisfaction_buckets_valid_and_total
  intro r hr
  have hload : Main.load_data none none none none [baseRow] = [baseRow] := rfl
  rw [hload] at hr
  rcases List.mem_singleton.mp hr with rfl
  exact ⟨4, rfl, by norm_num, by norm_num⟩

/-! ### Claim C2 -/

lemma getD_map_getD {α β : Type} (l : List α) (f : α → β) (d : β) (e : α) (i : Nat)
    (h : i < l.length) : (l.map f).getD i d = f (l.getD i e) := by
  rw [getD_map_of_lt l f d i h, List.getD_eq_getElem l e h]
  simp

/-- Elementwise shape of a `rate`-style series built over `labels` from a
per-label total `tc` and a per-label attrition count `ac`, exactly as the
Python list comprehensions build it. -/
lemma map_rate_formula {K : Type} (labels : List K) (tc ac : K → Nat) (i : Nat) :
    ((labels.map (fun l => tc l)).getD i 0 = 0 →
      (labels.map (fun l =>
        if tc l = 0 then (0 : ℚ)
        else pyRound ((ac l : ℚ) / (tc l) * 100) 1)).getD i 0 = 0) ∧
    ((labels.map (fun l => tc l)).getD i 0 ≠ 0 →
      (labels.map (fun l =>
        if tc l = 0 then (0 : ℚ)
        else pyRound ((ac l : ℚ) / (tc l) * 100) 1)).getD i 0
        = pyRound (((labels.map (fun l => ac l)).getD i 0 : ℚ)
            / ((labels.map (fun l => tc l)).getD i 0) * 100) 1) := by
  rcases Nat.lt_or_ge i labels.length with hlt | hge
  · rw [getD_map_of_lt labels (fun l => tc l) 0 i hlt,
      getD_map_of_lt labels (fun l => ac l) 0 i hlt,
      getD_map_of_lt labels
        (fun l => if tc l = 0 then (0 : ℚ)
          else pyRound ((ac l : ℚ) / (tc l) * 100) 1) (0 : ℚ) i hlt]
    constructor
    · intro h0
      rw [if_pos h0]
    · intro hne
      rw [if_neg hne]
  · rw [getD_map_of_ge labels (fun l => tc l) 0 i hge,
      getD_map_of_ge labels
        (fun l => if tc l = 0 then (0 : ℚ)
          else pyRound ((ac l : ℚ) / (tc l) * 100) 1) (0 : ℚ) i hge]
    exact ⟨fun _ => rfl, fun hne => absurd rfl hne⟩

/-- C2: in every rate-bearing series, the entry is 0 when the corresponding
total is 0, and otherwise it is exactly `round(attrition/total*100, 1)`; the
division is guarded, so it never happens on a zero total. Stated for the
department and job-role views of both files and for the years view (whose
attrition count at label `y` is the count of `y` among the attrition rows'
years). -/
theorem rate_zero_guard (g j e d : Option String) (data : List Row) (i : Nat) :
    ((Main.attrition_by_department g j e d data).total.getD i 0 = 0 →
      (Main.attrition_by_department g j e d data).rate.getD i 0 = 0) ∧
    ((Main.attrition_by_department g j e d data).total.getD i 0 ≠ 0 →
      (Main.attrition_by_department g j e d data).rate.getD i 0
        = pyRound (((Main.attrition_by_department g j e d data).attrition.getD i 0 : ℚ)
            / ((Main.attrition_by_department g j e d data).total.getD i 0) * 100) 1) ∧
    ((Main.attrition_by_jobrole g j e d data).total.getD i 0 = 0 →
      (Main.attrition_by_jobrole g j e d data).rate.getD i 0 = 0) ∧
    ((Main.attrition_by_jobrole g j e d data).total.getD i 0 ≠ 0 →
      (Main.attrition_by_jobrole g j e d data).rate.getD i 0
        = pyRound (((Main.attrition_by_jobrole g j e d data).attrition.getD i 0 : ℚ)
            / ((Main.attrition_by_jobrole g j e d data).total.getD i 0) * 100) 1) ∧
    ((Server.api_attrition_dept ⟨g, j, e, d⟩ data).total.getD i 0 = 0 →
      (Server.api_attrition_dept ⟨g, j, e, d⟩ data).rate.getD i 0 = 0) ∧
    ((Server.api_attrition_dept ⟨g, j, e, d⟩ data).total.getD i 0 ≠ 0 →
      (Server.api_attrition_dept ⟨g, j, e, d⟩ data).rate.getD i 0
        = pyRound (((Server.api_attrition_dept ⟨g, j, e, d⟩ data).attrition.getD i 0 : ℚ)
            / ((Server.api_attrition_dept ⟨g, j, e, d⟩ data).total.getD i 0) * 100) 1) ∧
    (∀ w, Main.years_attrition g j e d data = some w →
      (w.total.getD i 0 = 0 → w.attrition_rate.getD i 0 = 0) ∧
      (w.total.getD i 0 ≠ 0 →
        w.attrition_rate.getD i 0
          = pyRound (((((Main.load_data g j e d data).filter
                (fun r => r.Attrition == "Yes")).map
                (fun r => intVal r.YearsAtCompany)).count (w.labels.getD i 0) : ℚ)
              / (w.total.getD i 0) * 100) 1)) := by
  have hd := map_rate_formula
    (pySorted (((Main.load_data g j e d data).map (fun r => r.Department)).dedup))
    (fun l => ((Main.load_data g j e d data).map (fun r => r.Department)).count l)
    (fun l => (((Main.load_data g j e d data).filter
      (fun r => r.Attrition == "Yes")).map (fun r => r.Department)).count l) i
  have hj := map_rate_formula
    (pySorted (((Main.load_data g j e d data).map (fun r => r.JobRole)).dedup))
    (fun l => ((Main.load_data g j e d data).map (fun r => r.JobRole)).count l)
    (fun l => (((Main.load_data g j e d data).filter
      (fun r => r.Attrition == "Yes")).map (fun r => r.JobRole)).count l) i
  refine ⟨hd.1, hd.2, hj.1, hj.2, hd.1, hd.2, ?_⟩
  intro w hw
  by_cases hg : allParse (fun r => r.YearsAtCompany) (Main.load_data g j e d data) = true
  · simp only [Main.years_attrition] at hw
    rw [if_pos hg] at hw
    have hw2 := Option.some.inj hw
    subst hw2
    have hy := map_rate_formula
      ((List.range (min (listMaxOf ((Main.load_data g j e d data).map
        (fun r => intVal r.YearsAtCompany)) + 1) 41).toNat).map Int.ofNat)
      (fun y => ((Main.load_data g j e d data).map
        (fun r => intVal r.YearsAtCompany)).count y)
      (fun y => (((Main.load_data g j e d data).filter
        (fun r => r.Attrition == "Yes")).map
        (fun r => intVal r.YearsAtCompany)).count y) i
    refine ⟨hy.1, ?_⟩
    intro hne
    have hlt : i < ((List.range (min (listMaxOf ((Main.load_data g j e d data).map
        (fun r => intVal r.YearsAtCompany)) + 1) 41).toNat).map Int.ofNat).length := by
      by_contra hge
      push_neg at hge
      exact hne (getD_map_of_ge _ _ 0 i hge)
    have hnum := getD_map_getD
      ((List.range (min (listMaxOf ((Main.load_data g j e d data).map
        (fun r => intVal r.YearsAtCompany)) + 1) 41).toNat).map Int.ofNat)
      (fun y => (((Main.load_data g j e d data).filter
        (fun r => r.Attrition == "Yes")).map
        (fun r => intVal r.YearsAtCompany)).count y) 0 (0 : Int) i hlt
    rw [hy.2 hne, hnum]
  · simp only [Main.years_attrition] at hw
    rw [if_neg hg] at hw
    exact Option.noConfusion hw

unseal List.merge List.mergeSort in
theorem rate_zero_guard_witness :
    (Main.attrition_by_department none none none none [baseRow]).rate.getD 0 0
      = pyRound (((Main.attrition_by_department none none none none
            [baseRow]).attrition.getD 0 0 : ℚ)
          / ((Main.attrition_by_department none none none none
            [baseRow]).total.getD 0 0) * 100) 1 :=
  (rate_zero_guard none none none none [baseRow] 0).2.1 (by decide)

/-! ### Claim C1 -/

/-- Both count series of a category-grouping view sum to the row count and
the attrition-row count respectively. -/
lemma group_sums (rows : List Row) (key : Row → String) :
    ((pySorted ((rows.map key).dedup)).map
        (fun l => (rows.map key).count l)).sum = rows.length ∧
    ((pySorted ((rows.map key).dedup)).map
        (fun l => ((rows.filter (fun r => r.Attrition == "Yes")).map key).count l)).sum
      = rows.countP (fun r => r.Attrition == "Yes") := by
  constructor
  · rw [sum_count_over_sorted_dedup (rows.map key) (rows.map key) (fun k hk => hk)]
    exact List.length_map rows key
  · rw [sum_count_over_sorted_dedup]
    · rw [List.length_map, List.countP_eq_length_filter]
    · intro k hk
      rcases List.mem_map.mp hk with ⟨r, hr, rfl⟩
      exact List.mem_map_of_mem key (List.mem_of_mem_filter hr)

lemma age_total_sum (rows : List Row) (h : ∀ r ∈ rows, 18 ≤ intVal r.Age) :
    ((List.range bins.length).map (fun i =>
      rows.countP (fun r => ageIdx (intVal r.Age) == Int.ofNat i))).sum
      = rows.length := by
  have hmap : (List.range bins.length).map (fun i =>
      rows.countP (fun r => ageIdx (intVal r.Age) == Int.ofNat i))
      = ((List.range bins.length).map Int.ofNat).map
        (fun x => (rows.map (fun r => ageIdx (intVal r.Age))).count x) := by
    rw [List.map_map]
    apply List.map_congr_left
    intro i _
    exact countP_eq_count_map rows (fun r => ageIdx (intVal r.Age)) (Int.ofNat i)
  rw [hmap, sum_map_count_eq_length]
  · exact List.length_map rows _
  · exact List.Nodup.map Nat.cast_injective (List.nodup_range bins.length)
  · intro k hk
    rcases List.mem_map.mp hk with ⟨r, hr, rfl⟩
    have h18 := h r hr
    have h0 : 0 ≤ ageIdx (intVal r.Age) := ageIdx_nonneg_of_ge_18 h18
    have h9 : ageIdx (intVal r.Age) ≤ 9 := ageIdx_le_9 (intVal r.Age)
    exact List.mem_map.mpr ⟨(ageIdx (intVal r.Age)).toNat,
      List.mem_range.mpr (by rw [bins_length]; omega),
      Int.toNat_of_nonneg h0⟩

lemma age_attr_sum (rows : List Row) (h : ∀ r ∈ rows, 18 ≤ intVal r.Age) :
    ((List.range bins.length).map (fun i =>
      rows.countP (fun r =>
        ageIdx (intVal r.Age) == Int.ofNat i && r.Attrition == "Yes"))).sum
      = rows.countP (fun r => r.Attrition == "Yes") := by
  have hmap : (List.range bins.length).map (fun i =>
      rows.countP (fun r =>
        ageIdx (intVal r.Age) == Int.ofNat i && r.Attrition == "Yes"))
      = (List.range bins.length).map (fun i =>
        (rows.filter (fun r => r.Attrition == "Yes")).countP
          (fun r => ageIdx (intVal r.Age) == Int.ofNat i)) := by
    apply List.map_congr_left
    intro i _
    rw [List.countP_filter]
  rw [hmap, age_total_sum (rows.filter (fun r => r.Attrition == "Yes"))
      (fun r hr => h r (List.mem_of_mem_filter hr)),
    List.countP_eq_length_filter]

lemma years_total_sum (rows : List Row)
    (h : ∀ r ∈ rows, 0 ≤ intVal r.YearsAtCompany ∧ intVal r.YearsAtCompany ≤ 40) :
    (((List.range (min (listMaxOf (rows.map (fun r => intVal r.YearsAtCompany)) + 1)
        41).toNat).map Int.ofNat).map
      (fun y => (rows.map (fun r => intVal r.YearsAtCompany)).count y)).sum
      = rows.length := by
  rw [sum_map_count_eq_length]
  · exact List.length_map rows _
  · exact List.Nodup.map Nat.cast_injective (List.nodup_range _)
  · intro k hk
    rcases List.mem_map.mp hk with ⟨r, hr, hkr⟩
    rcases h r hr with ⟨h0, h40⟩
    have hM := le_listMaxOf (List.mem_map_of_mem (fun r => intVal r.YearsAtCompany) hr)
    have hk0 : 0 ≤ k := by
      rw [← hkr]
      exact h0
    have hk40 : k ≤ 40 := by
      rw [← hkr]
      exact h40
    have hkM : k ≤ listMaxOf (rows.map (fun r => intVal r.YearsAtCompany)) := by
      rw [← hkr]
      exact hM
    exact List.mem_map.mpr ⟨k.toNat,
      List.mem_range.mpr (by omega), Int.toNat_of_nonneg hk0⟩

/-- C1 counterexample: a filtered set consisting of one record with Age 17
falls below every age bin: the `total` series of the age view sums to 0
although the filtered set has one record. -/
theorem totals_sum_counterexample :
    Main.age_distribution none none none none [rowAge17] = some ageView17 ∧
    ageView17.total.sum = 0 ∧
    (Main.load_data none none none none [rowAge17]).length = 1 ∧
    (0 : Nat) ≠ 1 := by
  refine ⟨by decide, by decide, by decide, by decide⟩

/-- C1 (amended): for the department, job-role, gender and education-field
views the `total` series sums to the number of filtered records and the
`attrition` series to the number of those with Attrition = "Yes",
unconditionally.  For the age view the same holds provided every filtered
record's Age is at least 18 (older ages are still captured by the clamped
last bin), and for the years view the `total` series sums to the filtered
record count provided every parsed YearsAtCompany lies in 0..40; outside
those ranges records fall off the label range and are dropped. -/
theorem totals_sums_amended (g j e d : Option String) (data : List Row) :
    (Main.attrition_by_department g j e d data).total.sum
        = (Main.load_data g j e d data).length ∧
    (Main.attrition_by_department g j e d data).attrition.sum
        = (Main.load_data g j e d data).countP (fun r => r.Attrition == "Yes") ∧
    (Main.attrition_by_jobrole g j e d data).total.sum
        = (Main.load_data g j e d data).length ∧
    (Main.attrition_by_jobrole g j e d data).attrition.sum
        = (Main.load_data g j e d data).countP (fun r => r.Attrition == "Yes") ∧
    (Main.gender_split g j e d data).total.sum
        = (Main.load_data g j e d data).length ∧
    (Main.gender_split g j e d data).attrition.sum
        = (Main.load_data g j e d data).countP (fun r => r.Attrition == "Yes") ∧
    (Main.education_field g j e d data).total.sum
        = (Main.load_data g j e d data).length ∧
    (Main.education_field g j e d data).attrition.sum
        = (Main.load_data g j e d data).countP (fun r => r.Attrition == "Yes") ∧
    (∀ v, Main.age_distribution g j e d data = some v →
      (∀ r ∈ Main.load_data g j e d data, 18 ≤ intVal r.Age) →
      v.total.sum = (Main.load_data g j e d data).length ∧
      v.attrition.sum
        = (Main.load_data g j e d data).countP (fun r => r.Attrition == "Yes")) ∧
    (∀ v, Server.api_age_dist ⟨g, j, e, d⟩ data = some v →
      (∀ r ∈ Main.load_data g j e d data, 18 ≤ intVal r.Age) →
      v.total.sum = (Main.load_data g j e d data).length ∧
      v.attrition.sum
        = (Main.load_data g j e d data).countP (fun r => r.Attrition == "Yes")) ∧
    (∀ w, Main.years_attrition g j e d data = some w →
      (∀ r ∈ Main.load_data g j e d data,
        0 ≤ intVal r.YearsAtCompany ∧ intVal r.YearsAtCompany ≤ 40) →
      w.total.sum = (Main.load_data g j e d data).length) := by
  have hd := group_sums (Main.load_data g j e d data) (fun r => r.Department)
  have hjr := group_sums (Main.load_data g j e d data) (fun r => r.JobRole)
  have hgn := group_sums (Main.load_data g j e d data) (fun r => r.Gender)
  have hef := group_sums (Main.load_data g j e d data) (fun r => r.EducationField)
  have hage : ∀ v, Main.age_distribution g j e d data = some v →
      (∀ r ∈ Main.load_data g j e d data, 18 ≤ intVal r.Age) →
      v.total.sum = (Main.load_data g j e d data).length ∧
      v.attrition.sum
        = (Main.load_data g j e d data).countP (fun r => r.Attrition == "Yes") := by
    intro v hv h18
    by_cases hg2 : allParse (fun r => r.Age) (Main.load_data g j e d data) = true
    · simp only [Main.age_distribution] at hv
      rw [if_pos hg2] at hv
      have hv2 := Option.some.inj hv
      subst hv2
      exact ⟨age_total_sum _ h18, age_attr_sum _ h18⟩
    · simp only [Main.age_distribution] at hv
      rw [if_neg hg2] at hv
      exact Option.noConfusion hv
  refine ⟨hd.1, hd.2, hjr.1, hjr.2, hgn.1, hgn.2, hef.1, hef.2, hage, hage, ?_⟩
  intro w hw hrange
  by_cases hg2 : allParse (fun r => r.YearsAtCompany) (Main.load_data g j e d data) = true
  · simp only [Main.years_attrition] at hw
    rw [if_pos hg2] at hw
    have hw2 := Option.some.inj hw
    subst hw2
    exact years_total_sum _ hrange
  · simp only [Main.years_attrition] at hw
    rw [if_neg hg2] at hw
    exact Option.noConfusion hw

theorem totals_sums_amended_witness :
    ((∀ r ∈ Main.load_data none none none none [baseRow], 18 ≤ intVal r.Age) ∧
      ageViewBase.total.sum = (Main.load_data none none none none [baseRow]).length) ∧
    ((∀ r ∈ Main.load_data none none none none [baseRow],
        0 ≤ intVal r.YearsAtCompany ∧ intVal r.YearsAtCompany ≤ 40) ∧
      yearsBaseView.total.sum = (Main.load_data none none none none [baseRow]).length) := by
  have h := totals_sums_amended none none none none [baseRow]
  have h18 : ∀ r ∈ Main.load_data none none none none [baseRow], 18 ≤ intVal r.Age := by
    decide
  have hyr : ∀ r ∈ Main.load_data none none none none [baseRow],
      0 ≤ intVal r.YearsAtCompany ∧ intVal r.YearsAtCompany ≤ 40 := by
    decide
  refine ⟨⟨h18, ?_⟩, ⟨hyr, ?_⟩⟩
  · exact (h.2.2.2.2.2.2.2.2.1 ageViewBase rfl h18).1
  · exact h.2.2.2.2.2.2.2.2.2.2 yearsBaseView rfl hyr

/-! ### Claim C6 -/

/-- C6: every label of the years view is at most 40; and on a non-empty
filtered set whose parsed YearsAtCompany values are non-negative, the labels
are exactly the integers 0 through `min(max_years_seen, 40)`. -/
theorem years_labels_capped (g j e d : Option String) (data : List Row) (w : YearsView)
    (hw : Main.years_attrition g j e d data = some w) :
    (∀ y ∈ w.labels, y ≤ 40) ∧
    (Main.load_data g j e d data ≠ [] →
      (∀ r ∈ Main.load_data g j e d data, 0 ≤ intVal r.YearsAtCompany) →
      w.labels = (List.range (min (listMaxOf ((Main.load_data g j e d data).map
        (fun r => intVal r.YearsAtCompany))).toNat 40 + 1)).map Int.ofNat) := by
  by_cases hg2 : allParse (fun r => r.YearsAtCompany) (Main.load_data g j e d data) = true
  · simp only [Main.years_attrition] at hw
    rw [if_pos hg2] at hw
    have hw2 := Option.some.inj hw
    subst hw2
    constructor
    · intro y hy
      rcases List.mem_map.mp hy with ⟨n, hn, hny⟩
      have hn2 := List.mem_range.mp hn
      have hle : (min (listMaxOf ((Main.load_data g j e d data).map
          (fun r => intVal r.YearsAtCompany)) + 1) 41).toNat ≤ 41 := by
        omega
      rw [← hny]
      have : n ≤ 40 := by omega
      exact Int.ofNat_le.mpr this |>.trans (by norm_num)
    · intro hne hpos
      rcases List.exists_mem_of_ne_nil _ hne with ⟨r, hr⟩
      have h0 : 0 ≤ intVal r.YearsAtCompany := hpos r hr
      have hM := le_listMaxOf
        (List.mem_map_of_mem (fun r => intVal r.YearsAtCompany) hr)
      have hMnn : 0 ≤ listMaxOf ((Main.load_data g j e d data).map
          (fun r => intVal r.YearsAtCompany)) := le_trans h0 hM
      have harg : (min (listMaxOf ((Main.load_data g j e d data).map
          (fun r => intVal r.YearsAtCompany)) + 1) 41).toNat
          = min (listMaxOf ((Main.load_data g j e d data).map
            (fun r => intVal r.YearsAtCompany))).toNat 40 + 1 := by
        omega
      rw [harg]
  · simp only [Main.years_attrition] at hw
    rw [if_neg hg2] at hw
    exact Option.noConfusion hw

theorem years_labels_capped_witness :
    (∀ y ∈ years55View.labels, y ≤ 40) ∧
    years55View.labels = (List.range (min (listMaxOf ((Main.load_data none none none none
      [rowYears55]).map (fun r => intVal r.YearsAtCompany))).toNat 40 + 1)).map Int.ofNat := by
  have h := years_labels_capped none none none none [rowYears55] years55View rfl
  exact ⟨h.1, h.2 (by decide) (by decide)⟩

/-! ### Claim C4 -/

/-- C4 counterexample: the age histogram has TEN bins; its final bin is
labelled `"63-67"`, not `"58-62"`, and a record with Age 61 is counted in
bin 8 (`"58-62"`), which is not the final bin — the final bin count stays 0. -/
theorem age_bins_counterexample :
    Main.age_distribution none none none none [rowAge61] = some ageView61 ∧
    ageView61.labels.getD 9 "" = "63-67" ∧
    ageView61.total.getD 9 0 = 0 ∧
    ageView61.total.getD 8 0 = 1 ∧
    ("63-67" : String) ≠ "58-62" := by
  refine ⟨by decide, by decide, by decide, by decide, by decide⟩

/-- C4 (amended): the age bins have width 5 starting at 18, with TEN bins
ending at the bin labelled `"63-67"`; a record aged 17 or younger falls
outside all bins; ages 58–62 fall in bin 8 (`"58-62"`); ages 63 and above
fall in the final bin 9 (by clamping for ages 68 and above), whose label is
`"63-67"`. -/
theorem age_bins_amended :
    ageLabels = ["18-22", "23-27", "28-32", "33-37", "38-42", "43-47", "48-52",
      "53-57", "58-62", "63-67"] ∧
    bins.length = 10 ∧
    (∀ a : Int, a ≤ 17 → ageIdx a < 0) ∧
    (∀ a : Int, ∀ i : Nat, i < bins.length → a ≤ 17 → ¬ (ageIdx a = Int.ofNat i)) ∧
    (∀ a : Int, 58 ≤ a → a ≤ 62 → ageIdx a = 8) ∧
    (∀ a : Int, 63 ≤ a → ageIdx a = 9) ∧
    (∀ a : Int, ageIdx a ≤ 9) := by
  refine ⟨by decide, rfl, ?_, ?_, ?_, ?_, ?_⟩
  · exact fun a h => ageIdx_neg_of_le_17 h
  · intro a i hi h17 hEq
    have h1 := ageIdx_neg_of_le_17 h17
    have h2 : (0 : Int) ≤ Int.ofNat i := Int.ofNat_nonneg i
    omega
  · exact fun a h1 h2 => ageIdx_eq_8_of_58_62 h1 h2
  · exact fun a h => ageIdx_eq_9_of_ge_63 h
  · exact ageIdx_le_9

theorem age_bins_amended_witness :
    ageIdx 17 < 0 ∧ ageIdx 61 = 8 ∧ ageIdx 63 = 9 ∧ ageIdx 100 = 9 := by
  have h := age_bins_amended
  exact ⟨h.2.2.1 17 (by norm_num),
    h.2.2.2.2.1 61 (by norm_num) (by norm_num),
    h.2.2.2.2.2.1 63 (by norm_num),
    h.2.2.2.2.2.1 100 (by norm_num)⟩

/-! ### Claim C7 -/

/-- C7 counterexample: the work-life balance view's label sequence is the
fixed metric list, which is NOT sorted: `"Job Satisfaction"` precedes
`"Environment"`. -/
theorem labels_sorted_counterexample :
    Main.worklife_balance none none none none [] = some wlSkipView ∧
    ¬ List.Sorted (fun a b : String => a ≤ b) wlSkipView.labels := by
  constructor
  · rfl
  · intro hs
    have hs2 : List.Sorted (fun a b : String => a ≤ b)
        ("Job Satisfaction" :: ["Environment", "Relationships", "Work-Life Balance",
          "Job Involvement"]) := hs
    have h2 := List.rel_of_sorted_cons hs2 "Environment" (by simp)
    have h3 : strLe "Job Satisfaction" "Environment" = true := (strLe_iff _ _).mpr h2
    exact absurd h3 (by decide)

lemma pairwise_strLe_imp_sorted {l : List String}
    (h : List.Pairwise (fun a b => strLe a b = true) l) :
    List.Sorted (fun a b : String => a ≤ b) l :=
  h.imp (fun hab => (strLe_iff _ _).mp hab)

/-- C7 (amended): the label sequences of the filter options, the grouped
count views, the age histogram, the income view, the satisfaction view, the
overtime view and the years view are sorted ascending (lexicographically for
strings, numerically for the years labels).  The work-life balance view is
the exception: its fixed metric labels are not sorted. -/
theorem labels_sorted_amended (g j e d : Option String) (data : List Row) :
    List.Sorted (fun a b : String => a ≤ b) (Main.get_filters data).genders ∧
    List.Sorted (fun a b : String => a ≤ b) (Main.get_filters data).job_roles ∧
    List.Sorted (fun a b : String => a ≤ b) (Main.get_filters data).departments ∧
    List.Pairwise (fun a b : String × String => a.1 ≤ b.1)
      (Main.get_filters data).educations ∧
    List.Sorted (fun a b : String => a ≤ b)
      (Main.attrition_by_department g j e d data).labels ∧
    List.Sorted (fun a b : String => a ≤ b)
      (Main.attrition_by_jobrole g j e d data).labels ∧
    List.Sorted (fun a b : String => a ≤ b) (Main.gender_split g j e d data).labels ∧
    List.Sorted (fun a b : String => a ≤ b) (Main.education_field g j e d data).labels ∧
    (∀ v, Main.age_distribution g j e d data = some v →
      List.Sorted (fun a b : String => a ≤ b) v.labels) ∧
    (∀ v, Main.income_by_role g j e d data = some v →
      List.Sorted (fun a b : String => a ≤ b) v.labels) ∧
    (∀ v, Main.satisfaction_distribution g j e d data = some v →
      List.Sorted (fun a b : String => a ≤ b) v.labels) ∧
    (∀ v, Main.overtime_attrition g j e d data = some v →
      List.Sorted (fun a b : String => a ≤ b) v.labels) ∧
    (∀ w, Main.years_attrition g j e d data = some w →
      List.Sorted (fun a b : Int => a ≤ b) w.labels) := by
  have hyears : ∀ n : Nat, List.Sorted (fun a b : Int => a ≤ b)
      ((List.range n).map Int.ofNat) := by
    intro n
    exact ((List.pairwise_lt_range n).map Int.ofNat
      (fun a b hab => Int.ofNat_le.mpr (Nat.le_of_lt hab)))
  have hedu : List.Pairwise (fun a b : String × String => a.1 ≤ b.1)
      (EDUCATION_MAP.mergeSort (fun a b => strLe a.1 b.1)) := by
    have h := List.sorted_mergeSort
      (fun a b c hab hbc => strLe_trans a.1 b.1 c.1 hab hbc)
      (fun a b => strLe_total a.1 b.1) EDUCATION_MAP
    exact h.imp (fun hab => (strLe_iff _ _).mp hab)
  refine ⟨pySorted_sorted _, pySorted_sorted _, pySorted_sorted _, hedu,
    pySorted_sorted _, pySorted_sorted _, pySorted_sorted _, pySorted_sorted _,
    ?_, ?_, ?_, ?_, ?_⟩
  · intro v hv
    by_cases hg2 : allParse (fun r => r.Age) (Main.load_data g j e d data) = true
    · simp only [Main.age_distribution] at hv
      rw [if_pos hg2] at hv
      have hv2 := Option.some.inj hv
      subst hv2
      exact pairwise_strLe_imp_sorted
        (show List.Pairwise (fun a b => strLe a b = true) ageLabels by decide)
    · simp only [Main.age_distribution] at hv
      rw [if_neg hg2] at hv
      exact Option.noConfusion hv
  · intro v hv
    by_cases hg2 : allParse (fun r => r.MonthlyIncome) (Main.load_data g j e d data) = true
    · simp only [Main.income_by_role] at hv
      rw [if_pos hg2] at hv
      have hv2 := Option.some.inj hv
      subst hv2
      exact pySorted_sorted _
    · simp only [Main.income_by_role] at hv
      rw [if_neg hg2] at hv
      exact Option.noConfusion hv
  · intro v hv
    by_cases hg2 : ((Main.load_data g j e d data).all (fun r =>
        match pyInt? r.JobSatisfaction with
        | some v => satOk v
        | none => false)) = true
    · simp only [Main.satisfaction_distribution] at hv
      rw [if_pos hg2] at hv
      have hv2 := Option.some.inj hv
      subst hv2
      exact pairwise_strLe_imp_sorted
        (show List.Pairwise (fun a b => strLe a b = true) satLabels by decide)
    · simp only [Main.satisfaction_distribution] at hv
      rw [if_neg hg2] at hv
      exact Option.noConfusion hv
  · intro v hv
    by_cases hg2 : ((Main.load_data g j e d data).all (fun r =>
        (r.OverTime == "Yes" || r.OverTime == "No")
          && (r.Attrition == "Yes" || r.Attrition == "No"))) = true
    · simp only [Main.overtime_attrition] at hv
      rw [if_pos hg2] at hv
      have hv2 := Option.some.inj hv
      subst hv2
      exact pairwise_strLe_imp_sorted
        (show List.Pairwise (fun a b => strLe a b = true)
          ["With Overtime", "Without Overtime"] by decide)
    · simp only [Main.overtime_attrition] at hv
      rw [if_neg hg2] at hv
      exact Option.noConfusion hv
  · intro w hw
    by_cases hg2 : allParse (fun r => r.YearsAtCompany) (Main.load_data g j e d data) = true
    · simp only [Main.years_attrition] at hw
      rw [if_pos hg2] at hw
      have hw2 := Option.some.inj hw
      subst hw2
      exact hyears _
    · simp only [Main.years_attrition] at hw
      rw [if_neg hg2] at hw
      exact Option.noConfusion hw

theorem labels_sorted_witness :
    List.Sorted (fun a b : String => a ≤ b) satBaseView.labels ∧
    List.Sorted (fun a b : Int => a ≤ b) yearsBaseView.labels := by
  have h := labels_sorted_amended none none none none [baseRow]
  exact ⟨h.2.2.2.2.2.2.2.2.2.2.1 satBaseView rfl,
    h.2.2.2.2.2.2.2.2.2.2.2.2 yearsBaseView rfl⟩

/-! ### Claim C8 -/

/-- C8 counterexample: `rowMaybe` is in the filtered set, its
`JobSatisfaction` is non-numeric, and the work-life view reads that field —
yet the view succeeds and the boundary answers 200, because the comprehensions
only parse rows whose Attrition is exactly `"No"` or `"Yes"` and silently skip
this row. -/
theorem error_propagation_counterexample :
    pyInt? rowMaybe.JobSatisfaction = none ∧
    rowMaybe ∈ Main.load_data none none none none [rowMaybe] ∧
    Main.worklife_balance none none none none [rowMaybe] = some wlSkipView ∧
    handle (Main.worklife_balance none none none none [rowMaybe])
      = { status := 200, body := some wlSkipView } := by
  exact ⟨by decide, by decide, rfl, rfl⟩

/-- C8 (amended): for the views that parse a numeric field of EVERY filtered
record (KPIs, age, income, satisfaction, years), a filtered record with a
non-numeric value in that field makes the aggregation fail and the HTTP
boundary answer 500 with no payload — no partial result is produced.  (The
work-life view is the exception recorded by the counterexample: it parses
only records whose Attrition is "No" or "Yes".) -/
theorem error_propagation_amended (g j e d : Option String) (data : List Row) :
    ((∃ r ∈ Main.load_data g j e d data, pyInt? r.Age = none) →
      Main.get_kpis g j e d data = none ∧
      handle (Main.get_kpis g j e d data) = { status := 500, body := none }) ∧
    ((∃ r ∈ Server.load_data ⟨g, j, e, d⟩ data, pyInt? r.Age = none) →
      Server.api_kpis ⟨g, j, e, d⟩ data = none ∧
      handle (Server.api_kpis ⟨g, j, e, d⟩ data) = { status := 500, body := none }) ∧
    ((∃ r ∈ Main.load_data g j e d data, pyInt? r.Age = none) →
      Main.age_distribution g j e d data = none ∧
      handle (Main.age_distribution g j e d data) = { status := 500, body := none }) ∧
    ((∃ r ∈ Main.load_data g j e d data, pyInt? r.MonthlyIncome = none) →
      Main.income_by_role g j e d data = none ∧
      handle (Main.income_by_role g j e d data) = { status := 500, body := none }) ∧
    ((∃ r ∈ Main.load_data g j e d data, pyInt? r.JobSatisfaction = none) →
      Main.satisfaction_distribution g j e d data = none ∧
      handle (Main.satisfaction_distribution g j e d data)
        = { status := 500, body := none }) ∧
    ((∃ r ∈ Main.load_data g j e d data, pyInt? r.YearsAtCompany = none) →
      Main.years_attrition g j e d data = none ∧
      handle (Main.years_attrition g j e d data) = { status := 500, body := none }) := by
  have hkpis : (∃ r ∈ Main.load_data g j e d data, pyInt? r.Age = none) →
      Main.get_kpis g j e d data = none ∧
      handle (Main.get_kpis g j e d data) = { status := 500, body := none } := by
    rintro ⟨r, hr, hbad⟩
    have hg2 := allParse_eq_false hr hbad
    have hlen : ¬ (Main.load_data g j e d data).length = 0 := by
      have := List.length_pos.mpr (List.ne_nil_of_mem hr)
      omega
    have hnone : Main.get_kpis g j e d data = none := by
      simp only [Main.get_kpis]
      rw [if_neg hlen, hg2]
      simp
    exact ⟨hnone, by rw [hnone]; rfl⟩
  refine ⟨hkpis, hkpis, ?_, ?_, ?_, ?_⟩
  · rintro ⟨r, hr, hbad⟩
    have hg2 := allParse_eq_false hr hbad
    have hnone : Main.age_distribution g j e d data = none := by
      simp only [Main.age_distribution]
      rw [hg2]
      simp
    exact ⟨hnone, by rw [hnone]; rfl⟩
  · rintro ⟨r, hr, hbad⟩
    have hg2 := allParse_eq_false hr hbad
    have hnone : Main.income_by_role g j e d data = none := by
      simp only [Main.income_by_role]
      rw [hg2]
      simp
    exact ⟨hnone, by rw [hnone]; rfl⟩
  · rintro ⟨r, hr, hbad⟩
    have hg2 : ((Main.load_data g j e d data).all (fun r =>
        match pyInt? r.JobSatisfaction with
        | some v => satOk v
        | none => false)) = false := by
      have hnot : ¬ ((Main.load_data g j e d data).all (fun r =>
          match pyInt? r.JobSatisfaction with
          | some v => satOk v
          | none => false)) = true := by
        intro hall
        have h2 := List.all_eq_true.mp hall r hr
        rw [hbad] at h2
        simp at h2
      simpa using hnot
    have hnone : Main.satisfaction_distribution g j e d data = none := by
      simp only [Main.satisfaction_distribution]
      rw [hg2]
      simp
    exact ⟨hnone, by rw [hnone]; rfl⟩
  · rintro ⟨r, hr, hbad⟩
    have hg2 := allParse_eq_false hr hbad
    have hnone : Main.years_attrition g j e d data = none := by
      simp only [Main.years_attrition]
      rw [hg2]
      simp
    exact ⟨hnone, by rw [hnone]; rfl⟩

theorem error_propagation_witness :
    Main.get_kpis none none none none [rowBadAge] = none ∧
    handle (Main.get_kpis none none none none [rowBadAge])
      = { status := 500, body := none } := by
  have h := error_propagation_amended none none none none [rowBadAge]
  exact h.1 ⟨rowBadAge, by decide, by decide⟩

end HR
